import Mathlib

/-!
Verification of the parameter-mapping / validation / response-normalization layer
of the things-dxt MCP server (src/server/utils.js, src/server/index.js,
src/server/tool-handlers.js, src/server/response-formatter.js).

JavaScript values are shallowly embedded by the inductive `JSValue`; JS objects
are association lists in insertion order.  Strings are Lean strings (codepoint
length stands in for UTF-16 length; the two agree on the Basic Multilingual
Plane, which covers every input these claims are about).
-/

namespace ThingsDxt

/-- Shallow embedding of a JavaScript value.  `undefined` is the value `undefined`,
which is distinct from a key being absent only in that a key may be present and
bound to it. -/
inductive JSValue where
  | undefined
  | null
  | bool (b : Bool)
  | num (n : Int)
  | str (s : String)
  | arr (elems : List JSValue)
  | obj (fields : List (String × JSValue))

/-- A JavaScript object, as an association list in insertion order. -/
abbrev JsObj := List (String × JSValue)

/-- JavaScript truthiness of a value (`NaN` does not occur in this layer). -/
def truthy : JSValue → Bool
  | .undefined => false
  | .null => false
  | .bool b => b
  | .num n => n != 0
  | .str s => s != ""
  | .arr _ => true
  | .obj _ => true

/-- Is the value the JS literal `null` (strict equality `=== null`)? -/
def isNull : JSValue → Bool
  | .null => true
  | _ => false

/-- Is the value the JS literal `false` (strict equality `=== false`)? -/
def isStrictFalse : JSValue → Bool
  | .bool false => true
  | _ => false

/-- Property access `o.k` on an object given as an association list:
`undefined` when the key is absent. -/
def getProp (o : JsObj) (k : String) : JSValue :=
  match o.find? (fun p => p.1 == k) with
  | some p => p.2
  | none => .undefined

/-- Property access `v.k` on an arbitrary value; non-objects yield `undefined`
(the primitives this layer reads properties from have none of the accessed
names). -/
def getField (v : JSValue) (k : String) : JSValue :=
  match v with
  | .obj fs => getProp fs k
  | _ => .undefined

/-- String conversion `String(v)` as used by template literals and `Error`
messages in the sources (arrays and nested objects never reach it there). -/
def jsToString : JSValue → String
  | .undefined => "undefined"
  | .null => "null"
  | .bool b => if b then "true" else "false"
  | .num n => toString n
  | .str s => s
  | .arr _ => ""
  | .obj _ => "[object Object]"

/-- The JavaScript whitespace class: the set matched by the regex class
`\\s` and removed by `String.prototype.trim` (ECMAScript WhiteSpace plus
LineTerminator; both sets coincide), written out as the explicit finite set
of code points. -/
def isJsWhitespace (c : Char) : Bool :=
  c == ' ' || c == '\t' || c == '\n' || c == '\r' || c == '\x0b' || c == '\x0c' ||
  c == '\u00A0' || c == '\u1680' || c == '\u2000' || c == '\u2001' || c == '\u2002' ||
  c == '\u2003' || c == '\u2004' || c == '\u2005' || c == '\u2006' || c == '\u2007' ||
  c == '\u2008' || c == '\u2009' || c == '\u200A' || c == '\u2028' || c == '\u2029' ||
  c == '\u202F' || c == '\u205F' || c == '\u3000' || c == '\uFEFF'

/-- Leading and trailing JS whitespace removal on a character list. -/
def jsTrimList (l : List Char) : List Char :=
  ((l.dropWhile isJsWhitespace).reverse.dropWhile isJsWhitespace).reverse

/-- `String.prototype.trim`. -/
def jsTrim (s : String) : String := ⟨jsTrimList s.data⟩

/-- The regex word class `\w`, that is `[A-Za-z0-9_]`. -/
def isWordChar (c : Char) : Bool :=
  (decide ('a' ≤ c) && decide (c ≤ 'z')) ||
  (decide ('A' ≤ c) && decide (c ≤ 'Z')) ||
  (decide ('0' ≤ c) && decide (c ≤ '9')) || c == '_'

/-- Case-insensitive character comparison, the `/i` flag canonicalization
restricted to the ASCII letters occurring in the deny-list patterns. -/
def charCI (a b : Char) : Bool := a.toLower == b.toLower

/-- One token of a deny-list regex: a literal character (compared
case-insensitively), `\s+`, or `\w+`. -/
inductive Tok where
  | lit (c : Char)
  | wsPlus
  | wordPlus
deriving DecidableEq

/-- Does the token sequence match a prefix of the character list?
`\s+` and `\w+` consume one mandatory character and then any number more,
with backtracking. -/
def tokMatch (ts : List Tok) : List Char → Bool
  | [] => ts.isEmpty
  | d :: ds =>
    match ts with
    | [] => true
    | .lit c :: ts' => charCI c d && tokMatch ts' ds
    | .wsPlus :: ts' =>
        isJsWhitespace d && (tokMatch ts' ds || tokMatch (.wsPlus :: ts') ds)
    | .wordPlus :: ts' =>
        isWordChar d && (tokMatch ts' ds || tokMatch (.wordPlus :: ts') ds)

/-- Unanchored regex test: does the token sequence match starting at any
position of the character list? -/
def tokSearch (ts : List Tok) : List Char → Bool
  | [] => tokMatch ts []
  | d :: ds => tokMatch ts (d :: ds) || tokSearch ts ds

/-- Literal characters of a pattern string as tokens. -/
def lits (s : String) : List Tok := s.data.map Tok.lit

/-- The regex `/tell\s+application/i` of utils.js. -/
def tellApplicationPat : List Tok := lits "tell" ++ [.wsPlus] ++ lits "application"

/-- The regex of utils.js that rejects the end-tell AppleScript construct. -/
def endTellPat : List Tok := lits "end" ++ [.wsPlus] ++ lits "tell"

/-- The regex of utils.js that rejects variable reassignment, literally
the word set, whitespace, a word, whitespace, the word to. -/
def setToPat : List Tok := lits "set" ++ [.wsPlus, .wordPlus, .wsPlus] ++ lits "to"

/-- The regex of utils.js that rejects shell invocation. -/
def doShellScriptPat : List Tok :=
  lits "do" ++ [.wsPlus] ++ lits "shell" ++ [.wsPlus] ++ lits "script"

/-- The regex `/osascript/i` of utils.js. -/
def osascriptPat : List Tok := lits "osascript"

/-- The fixed deny-list `dangerousPatterns` of
`ThingsValidator.validateStringInput` (src/server/utils.js lines 68 to 74). -/
def dangerousPatterns : List (List Tok) :=
  [tellApplicationPat, endTellPat, setToPat, doShellScriptPat, osascriptPat]

/-- Does the string match any deny-list pattern (the for-loop over
`dangerousPatterns` with `pattern.test(input)`)? -/
def containsDangerous (s : String) : Bool :=
  dangerousPatterns.any (fun p => tokSearch p s.data)

/-- The MCP error codes used by this layer, with their JSON-RPC numbers. -/
inductive ErrorCode where
  | invalidParams
  | internalError
  | methodNotFound
deriving DecidableEq

/-- The numeric JSON-RPC code of an MCP error code. -/
def ErrorCode.jsonRpcCode : ErrorCode → Int
  | .invalidParams => -32602
  | .internalError => -32603
  | .methodNotFound => -32601

/-- An `McpError` of the MCP SDK: an error code plus the message passed to the
constructor. -/
structure McpError where
  code : ErrorCode
  message : String
deriving DecidableEq

/-- The JS `Error.message` of an `McpError`: the SDK constructor prefixes the
code, producing the string MCP error code colon message. -/
def McpError.jsMessage (e : McpError) : String :=
  "MCP error " ++ toString e.code.jsonRpcCode ++ ": " ++ e.message

/-- The shape of the validation-limits record `SERVER_CONFIG.validation`
(server-config.js, included in the sources at the end of
src/server/jxa-templates.js), fields in source order.  Theorems are stated
over an arbitrary configuration and instantiated at the real one. -/
structure ValidationConfig where
  maxStringLength : Nat
  maxArrayLength : Nat
  maxRequestSize : Nat
  maxNotesLength : Nat
  maxScriptSize : Nat
deriving DecidableEq

/-- `SERVER_CONFIG.validation` (server-config.js, included in the sources at
the end of src/server/jxa-templates.js): maxStringLength 2000, maxArrayLength
100, maxRequestSize 32KB, maxNotesLength 10000, maxScriptSize 100KB. -/
def serverConfigValidation : ValidationConfig :=
  { maxStringLength := 2000
    maxArrayLength := 100
    maxRequestSize := 32 * 1024
    maxNotesLength := 10000
    maxScriptSize := 100 * 1024 }

/-- `ThingsValidator.validateStringInput` (src/server/utils.js lines 45 to 86):
type check, emptiness and length checks on the untrimmed input, the deny-list
scan, and finally the trimmed string is returned. -/
def validateStringInput (input : JSValue) (fieldName : String) (maxLength : Nat) :
    Except McpError String :=
  match input with
  | .str s =>
    if s.length == 0 then
      .error ⟨.invalidParams, fieldName ++ " cannot be empty"⟩
    else if s.length > maxLength then
      .error ⟨.invalidParams, fieldName ++ " cannot exceed " ++ toString maxLength ++ " characters"⟩
    else if containsDangerous s then
      .error ⟨.invalidParams, fieldName ++ " contains potentially dangerous script patterns"⟩
    else
      .ok (jsTrim s)
  | _ => .error ⟨.invalidParams, fieldName ++ " must be a string"⟩

/-- `ThingsValidator.validateArrayInput` (src/server/utils.js lines 88 to 104):
array check, length cap, then `validateStringInput` over each element with the
literal per-item cap 100. -/
def validateArrayInput (input : JSValue) (fieldName : String) (maxItems : Nat) :
    Except McpError (List String) :=
  match input with
  | .arr items =>
    if items.length > maxItems then
      .error ⟨.invalidParams, fieldName ++ " cannot exceed " ++ toString maxItems ++ " items"⟩
    else
      items.mapM (fun item => validateStringInput item (fieldName ++ " item") 100)
  | _ => .error ⟨.invalidParams, fieldName ++ " must be an array"⟩

/-- Syntactic test of the regex `/^\d{4}-\d{2}-\d{2}$/` of
`ThingsValidator.validateDateInput`. -/
def dateRegexTest (s : String) : Bool :=
  match s.data with
  | [y1, y2, y3, y4, h1, m1, m2, h2, d1, d2] =>
    y1.isDigit && y2.isDigit && y3.isDigit && y4.isDigit && h1 == '-' &&
    m1.isDigit && m2.isDigit && h2 == '-' && d1.isDigit && d2.isDigit
  | _ => false

/-- Numeric value of a decimal digit character. -/
def digitVal (c : Char) : Nat := c.toNat - 48

/-- Proleptic Gregorian leap-year rule, as used by the JS `Date` object. -/
def isLeapYear (y : Nat) : Bool := (y % 4 == 0 && y % 100 != 0) || y % 400 == 0

/-- Number of days of a month of a year in the proleptic Gregorian calendar. -/
def daysInMonth (y m : Nat) : Nat :=
  if m == 2 then (if isLeapYear y then 29 else 28)
  else if m == 4 || m == 6 || m == 9 || m == 11 then 30
  else 31

/-- Validity of `new Date(s)` under V8 (the engine of the required Node
runtime) for a string already matching `^\d{4}-\d{2}-\d{2}$`: the engine
accepts exactly the strings whose fields denote a real proleptic-Gregorian
calendar date, so for example 2024-02-30, a month 00 or 13, or a day 00 parse
to an Invalid Date and `isNaN(date.getTime())` holds. -/
def jsDateValid (s : String) : Bool :=
  match s.data with
  | [y1, y2, y3, y4, _, m1, m2, _, d1, d2] =>
    let y := 1000 * digitVal y1 + 100 * digitVal y2 + 10 * digitVal y3 + digitVal y4
    let m := 10 * digitVal m1 + digitVal m2
    let d := 10 * digitVal d1 + digitVal d2
    decide (1 ≤ m) && decide (m ≤ 12) && decide (1 ≤ d) && decide (d ≤ daysInMonth y m)
  | _ => false

/-- `ThingsValidator.validateDateInput` (src/server/utils.js lines 106 to 131):
type check, regex test, then `new Date(input)` validity; the input string is
returned unchanged. -/
def validateDateInput (input : JSValue) (fieldName : String) : Except McpError String :=
  match input with
  | .str s =>
    if !dateRegexTest s then
      .error ⟨.invalidParams, fieldName ++ " must be in YYYY-MM-DD format"⟩
    else if !jsDateValid s then
      .error ⟨.invalidParams, fieldName ++ " is not a valid date"⟩
    else
      .ok s
  | _ => .error ⟨.invalidParams, fieldName ++ " must be a string in YYYY-MM-DD format"⟩

/-- Replace the value of a key if present (keeping its position), else append
the pair: the effect of one step of JS object-spread merging. -/
def setKey (o : JsObj) (k : String) (v : JSValue) : JsObj :=
  if o.any (fun p => p.1 == k) then o.map (fun p => if p.1 == k then (k, v) else p)
  else o ++ [(k, v)]

/-- JS object-spread merge: the fields of `extra` are written over `base` in
order, overriding same-named keys in place and appending new ones. -/
def spreadMerge (base extra : JsObj) : JsObj :=
  extra.foldl (fun acc p => setKey acc p.1 p.2) base

/-- The object literal assembled by `ParameterMapper.validateAndMapParameters`
(src/server/utils.js lines 235 to 271) before the null filter: each field is
the source conditional expression, a validator call when the argument is
truthy and `null` otherwise, evaluated in the declared order (the first failing
validator throws), with `additionalFields` spread in last. -/
def assembleParameters (cfg : ValidationConfig) (args : JsObj)
    (additionalFields : JsObj) : Except McpError JsObj := do
  let name ←
    if truthy (getProp args "title") then
      JSValue.str <$> validateStringInput (getProp args "title") "title" cfg.maxStringLength
    else if truthy (getProp args "name") then
      JSValue.str <$> validateStringInput (getProp args "name") "name" cfg.maxStringLength
    else pure JSValue.null
  let title ←
    if truthy (getProp args "title") then
      JSValue.str <$> validateStringInput (getProp args "title") "title" cfg.maxStringLength
    else pure JSValue.null
  let id ←
    if truthy (getProp args "id") then
      JSValue.str <$> validateStringInput (getProp args "id") "id" cfg.maxStringLength
    else pure JSValue.null
  let notes ←
    if truthy (getProp args "notes") then
      JSValue.str <$> validateStringInput (getProp args "notes") "notes" cfg.maxNotesLength
    else pure JSValue.null
  let activation_date ←
    if truthy (getProp args "when") then
      JSValue.str <$> validateDateInput (getProp args "when") "when"
    else if truthy (getProp args "due_date") then
      JSValue.str <$> validateDateInput (getProp args "due_date") "due_date"
    else pure JSValue.null
  let due_date ←
    if truthy (getProp args "deadline") then
      JSValue.str <$> validateDateInput (getProp args "deadline") "deadline"
    else pure JSValue.null
  let area ←
    if truthy (getProp args "area_title") then
      JSValue.str <$> validateStringInput (getProp args "area_title") "area_title" cfg.maxStringLength
    else if truthy (getProp args "area") then
      JSValue.str <$> validateStringInput (getProp args "area") "area" cfg.maxStringLength
    else pure JSValue.null
  let area_id ←
    if truthy (getProp args "area_id") then
      JSValue.str <$> validateStringInput (getProp args "area_id") "area_id" cfg.maxStringLength
    else pure JSValue.null
  let project ←
    if truthy (getProp args "list_title") then
      JSValue.str <$> validateStringInput (getProp args "list_title") "list_title" cfg.maxStringLength
    else if truthy (getProp args "project") then
      JSValue.str <$> validateStringInput (getProp args "project") "project" cfg.maxStringLength
    else pure JSValue.null
  let list_id ←
    if truthy (getProp args "list_id") then
      JSValue.str <$> validateStringInput (getProp args "list_id") "list_id" cfg.maxStringLength
    else pure JSValue.null
  let tags ←
    if truthy (getProp args "tags") then
      (fun l => JSValue.arr (l.map JSValue.str)) <$>
        validateArrayInput (getProp args "tags") "tags" cfg.maxArrayLength
    else pure JSValue.null
  let checklist_items ←
    if truthy (getProp args "checklist_items") then
      (fun l => JSValue.arr (l.map JSValue.str)) <$>
        validateArrayInput (getProp args "checklist_items") "checklist_items" cfg.maxArrayLength
    else pure JSValue.null
  let todos ←
    if truthy (getProp args "todos") then
      (fun l => JSValue.arr (l.map JSValue.str)) <$>
        validateArrayInput (getProp args "todos") "todos" cfg.maxArrayLength
    else pure JSValue.null
  let heading ←
    if truthy (getProp args "heading") then
      JSValue.str <$> validateStringInput (getProp args "heading") "heading" cfg.maxStringLength
    else pure JSValue.null
  let completed :=
    match getProp args "completed" with
    | .undefined => JSValue.null
    | v => JSValue.bool (truthy v)
  let canceled :=
    match getProp args "canceled" with
    | .undefined => JSValue.null
    | v => JSValue.bool (truthy v)
  let result : JsObj :=
    [("name", name), ("title", title), ("id", id), ("notes", notes),
     ("activation_date", activation_date), ("due_date", due_date),
     ("area", area), ("area_id", area_id), ("project", project), ("list_id", list_id),
     ("tags", tags), ("checklist_items", checklist_items), ("todos", todos),
     ("heading", heading), ("completed", completed), ("canceled", canceled)]
  return spreadMerge result additionalFields

/-- `ParameterMapper.validateAndMapParameters` (src/server/utils.js
lines 234 to 275): the assembled object with every entry whose value is
strictly `null` removed (`Object.entries` filtered on `v !== null`). -/
def validateAndMapParameters (cfg : ValidationConfig) (args : JsObj)
    (additionalFields : JsObj := []) : Except McpError JsObj :=
  (assembleParameters cfg args additionalFields).map
    (fun merged => merged.filter (fun p => !isNull p.2))

/-- `ERROR_MESSAGES.JXA_TIMEOUT` (server-config.js, included in the sources
at the end of src/server/jxa-templates.js). -/
def jxaTimeoutMessage : String := "JXA execution timed out"

/-- The outcome of the out-of-process `execAsync` call together with the
`JSON.parse` of its trimmed stdout.  `execAsync` and `JSON.parse` are
JavaScript builtins, so they are modelled as an oracle: `resolved` carries the
stderr text and the parse result of stdout (`Except.error` holds the parse
error message), `rejected` carries the error code (e.g. ETIMEDOUT; `none`
stands for a numeric or absent code, which never strictly equals a string)
and the error message. -/
inductive ExecOutcome where
  | resolved (stderrOut : String) (stdoutParsed : Except String JSValue)
  | rejected (code : Option String) (message : String)

/-- An error reaching the outer catch of `executeJXA`: its JS `code` property
(when it is a string) and its `message`. -/
structure CaughtError where
  code : Option String
  message : String

/-- The outer catch block of `ThingsExtension.executeJXA` (src/server/index.js
lines 158 to 178): an ETIMEDOUT code becomes the timeout InternalError, every
other caught error is wrapped as InternalError with the prefix
JXA execution failed. -/
def catchWrap (e : CaughtError) : McpError :=
  if e.code == some "ETIMEDOUT" then ⟨.internalError, jxaTimeoutMessage⟩
  else ⟨.internalError, "JXA execution failed: " ++ e.message⟩

/-- The McpError thrown by the script-size check of `executeJXA`
(src/server/index.js lines 97 to 101). -/
def jxaScriptSizeError (scriptLen maxScriptSize : Nat) : McpError :=
  ⟨.invalidParams,
   "Generated JXA script too large: " ++ toString scriptLen ++
   " bytes (max: " ++ toString maxScriptSize ++ ")"⟩

/-- The result of `executeJXA`: whether `execAsync` was ever invoked, and the
value returned or the McpError thrown. -/
structure ExecTrace where
  executorInvoked : Bool
  result : Except McpError JSValue

/-- `ThingsExtension.executeJXA` (src/server/index.js lines 94 to 179).  The
whole body sits in a try whose catch is `catchWrap`, so the script-size
McpError is itself caught and re-wrapped; the size check precedes the
`execAsync` call, so an oversized script never invokes the executor.  After a
resolved call: non-empty stderr throws, then the parsed stdout is checked; a
parse failure throws a JXAExecutionError, and a parsed object with
`success === false` and a truthy `error` throws a JXAExecutionError from
inside the parse try, which the parse catch wraps once more. -/
def executeJXA (maxScriptSize : Nat) (script : String) (outcome : ExecOutcome) :
    ExecTrace :=
  if script.length > maxScriptSize then
    { executorInvoked := false
      result := .error (catchWrap
        ⟨none, (jxaScriptSizeError script.length maxScriptSize).jsMessage⟩) }
  else
    match outcome with
    | .rejected code msg =>
      { executorInvoked := true, result := .error (catchWrap ⟨code, msg⟩) }
    | .resolved stderrOut parsed =>
      if stderrOut != "" then
        { executorInvoked := true
          result := .error (catchWrap ⟨none, "JXA error: " ++ stderrOut⟩) }
      else
        match parsed with
        | .error pmsg =>
          { executorInvoked := true
            result := .error (catchWrap
              ⟨some "JXA_EXECUTION_ERROR",
               "JXA execution failed: Invalid JXA response: " ++ pmsg⟩) }
        | .ok parsedV =>
          if isStrictFalse (getField parsedV "success") &&
             truthy (getField parsedV "error") then
            let innerMsg :=
              let m := getField (getField parsedV "error") "message"
              if truthy m then jsToString m else "JXA script returned an error"
            { executorInvoked := true
              result := .error (catchWrap
                ⟨some "JXA_EXECUTION_ERROR",
                 "JXA execution failed: Invalid JXA response: JXA execution failed: " ++
                 innerMsg⟩) }
          else
            { executorInvoked := true, result := .ok parsedV }

/-- The optional chaining `result.error?.message` of `executeThingsJXA`:
`undefined` when `error` is null or undefined, else the `message` property. -/
def optionalChainMessage (result : JSValue) : JSValue :=
  match getField result "error" with
  | .undefined => .undefined
  | .null => .undefined
  | v => getField v "message"

/-- The normalization step of `ThingsExtension.executeThingsJXA`
(src/server/index.js lines 194 to 198): when `result.success` and
`result.data` are both truthy, return `result.data`; else throw an Error whose
message is the optionally-chained error message, with the fallback text
Unknown error occurred. -/
def thingsNormalize (result : JSValue) : Except String JSValue :=
  if truthy (getField result "success") && truthy (getField result "data") then
    .ok (getField result "data")
  else
    let m := optionalChainMessage result
    .error (if truthy m then jsToString m else "Unknown error occurred")

/-- An error thrown out of `executeThingsJXA`: either the McpError propagated
from `executeJXA` or the plain Error of the normalization step. -/
inductive ThrownError where
  | mcp (e : McpError)
  | err (message : String)

/-- `ThingsExtension.executeThingsJXA` (src/server/index.js lines 189 to 206):
`executeJXA` followed by `thingsNormalize`; its catch only logs and rethrows. -/
def executeThingsJXA (maxScriptSize : Nat) (script : String)
    (outcome : ExecOutcome) : Bool × Except ThrownError JSValue :=
  let t := executeJXA maxScriptSize script outcome
  match t.result with
  | .error e => (t.executorInvoked, .error (.mcp e))
  | .ok result =>
    match thingsNormalize result with
    | .ok d => (t.executorInvoked, .ok d)
    | .error m => (t.executorInvoked, .error (.err m))

/-- `ResponseFormatter.createSuccessResponse` (src/server/response-formatter.js
lines 14 to 23): wraps the data object as
`{content:[{type:"text",text:JSON.stringify(data)}]}`; `JSON.stringify` is a
JS builtin, so the model keeps the structured value that is serialized. -/
structure McpToolResponse where
  contentText : JSValue

/-- Build the success response wrapper around a data object. -/
def createSuccessResponse (data : JSValue) : McpToolResponse := ⟨data⟩

/-- `ToolHandlers.updateTodo` (src/server/tool-handlers.js lines 413 to 455).
The mapper runs first (its McpError propagates), then the id presence check
throws InvalidParams; everything after sits in a try whose catch returns the
soft-failure envelope with code TODO_NOT_FOUND.  The awaited
`executeThingsJXA` call is the only fallible step inside the try and is
passed as the `exec` oracle. -/
def updateTodo (cfg : ValidationConfig) (args : JsObj)
    (exec : Except ThrownError JSValue) : Except McpError McpToolResponse :=
  match validateAndMapParameters cfg args with
  | .error e => .error e
  | .ok scriptParams =>
    if !truthy (getProp scriptParams "id") then
      .error ⟨.invalidParams, "Todo ID is required for update"⟩
    else
      match exec with
      | .ok _ =>
        .ok (createSuccessResponse (.obj
          [("success", .bool true),
           ("message", .str ("Updated to-do: " ++ jsToString (getProp scriptParams "id")))]))
      | .error _ =>
        .ok (createSuccessResponse (.obj
          [("success", .bool false),
           ("message", .str ("To-do not found: " ++ jsToString (getProp scriptParams "id"))),
           ("error", .str "TODO_NOT_FOUND")]))

/-- `ToolHandlers.updateProject` (src/server/tool-handlers.js lines 457 to
498), structured exactly like `updateTodo` with code PROJECT_NOT_FOUND. -/
def updateProject (cfg : ValidationConfig) (args : JsObj)
    (exec : Except ThrownError JSValue) : Except McpError McpToolResponse :=
  match validateAndMapParameters cfg args with
  | .error e => .error e
  | .ok scriptParams =>
    if !truthy (getProp scriptParams "id") then
      .error ⟨.invalidParams, "Project ID is required for update"⟩
    else
      match exec with
      | .ok _ =>
        .ok (createSuccessResponse (.obj
          [("success", .bool true),
           ("message", .str ("Updated project: " ++ jsToString (getProp scriptParams "id")))]))
      | .error _ =>
        .ok (createSuccessResponse (.obj
          [("success", .bool false),
           ("message", .str ("Project not found: " ++ jsToString (getProp scriptParams "id"))),
           ("error", .str "PROJECT_NOT_FOUND")]))

/-- `ToolHandlers.showItem` (src/server/tool-handlers.js lines 500 to 528):
the id is validated by `validateStringInput` (its McpError propagates); the
try around the execution returns the soft-failure envelope with code
ITEM_NOT_FOUND on any error. -/
def showItem (cfg : ValidationConfig) (args : JsObj)
    (exec : Except ThrownError JSValue) : Except McpError McpToolResponse :=
  match validateStringInput (getProp args "id") "id" cfg.maxStringLength with
  | .error e => .error e
  | .ok itemId =>
    match exec with
    | .ok item =>
      .ok (createSuccessResponse (.obj
        [("success", .bool true), ("id", .str itemId), ("item", item)]))
    | .error _ =>
      .ok (createSuccessResponse (.obj
        [("success", .bool false),
         ("message", .str ("Item not found: " ++ itemId)),
         ("error", .str "ITEM_NOT_FOUND")]))

/-- Is an `Except` a success? -/
def exceptIsOk {ε α : Type} : Except ε α → Bool
  | .ok _ => true
  | .error _ => false

/-- The named field of the data object wrapped in an MCP tool response, or
`undefined` when the computation failed. -/
def responseField (x : Except McpError McpToolResponse) (k : String) : JSValue :=
  match x with
  | .ok r => getField r.contentText k
  | .error _ => .undefined

end ThingsDxt
namespace ThingsDxt

/-! ### Helper lemmas -/

theorem length_ne_zero_of_ne_empty {s : String} (h : s ≠ "") : s.length ≠ 0 := by
  intro hl
  apply h
  cases s with
  | mk data =>
    simp only [String.length] at hl
    rw [List.length_eq_zero] at hl
    rw [hl]

theorem validateStringInput_ok {s : String} (f : String) {m : Nat}
    (h0 : s ≠ "") (h1 : s.length ≤ m) (h2 : containsDangerous s = false) :
    validateStringInput (.str s) f m = .ok (jsTrim s) := by
  have hb : (s.length == 0) = false := by
    simpa using length_ne_zero_of_ne_empty h0
  have hgt : ¬ s.length > m := not_lt.mpr h1
  simp [validateStringInput, hb, hgt, h2]

theorem validateDateInput_ok {s : String} (f : String)
    (h1 : dateRegexTest s = true) (h2 : jsDateValid s = true) :
    validateDateInput (.str s) f = .ok s := by
  simp [validateDateInput, h1, h2]

theorem dateRegexTest_ne_empty {s : String} (h : dateRegexTest s = true) : s ≠ "" := by
  intro he
  subst he
  exact absurd h (by decide)

theorem tokMatch_append {ts : List Tok} {cs : List Char} (ext : List Char)
    (h : tokMatch ts cs = true) : tokMatch ts (cs ++ ext) = true := by
  induction cs generalizing ts with
  | nil =>
    cases ts with
    | nil => cases ext <;> rfl
    | cons t ts' => simp [tokMatch] at h
  | cons d ds ih =>
    cases ts with
    | nil => rfl
    | cons t ts' =>
      cases t with
      | lit c =>
        simp only [List.cons_append, tokMatch, Bool.and_eq_true] at h ⊢
        exact ⟨h.1, ih h.2⟩
      | wsPlus =>
        simp only [List.cons_append, tokMatch, Bool.and_eq_true, Bool.or_eq_true] at h ⊢
        exact ⟨h.1, h.2.elim (fun hh => Or.inl (ih hh)) (fun hh => Or.inr (ih hh))⟩
      | wordPlus =>
        simp only [List.cons_append, tokMatch, Bool.and_eq_true, Bool.or_eq_true] at h ⊢
        exact ⟨h.1, h.2.elim (fun hh => Or.inl (ih hh)) (fun hh => Or.inr (ih hh))⟩

theorem tokSearch_of_match {ts : List Tok} {cs : List Char} (pre : List Char)
    (h : tokMatch ts cs = true) : tokSearch ts (pre ++ cs) = true := by
  induction pre with
  | nil =>
    cases cs with
    | nil => simpa [tokSearch] using h
    | cons d ds => simp [tokSearch, h]
  | cons x xs ih => simp [tokSearch, ih]

theorem charCI_head_ws (d : Char) (hd : isJsWhitespace d = true) :
    charCI 't' d = false ∧ charCI 'e' d = false ∧ charCI 's' d = false ∧
    charCI 'd' d = false ∧ charCI 'o' d = false := by
  simp only [isJsWhitespace, Bool.or_eq_true, beq_iff_eq] at hd
  casesm* _ ∨ _ <;> subst_vars <;>
    exact ⟨by decide, by decide, by decide, by decide, by decide⟩

theorem tokSearch_lit_head_ws (c : Char) (ts : List Tok) (l : List Char)
    (hc : ∀ d, isJsWhitespace d = true → charCI c d = false)
    (hl : ∀ d ∈ l, isJsWhitespace d = true) :
    tokSearch (.lit c :: ts) l = false := by
  induction l with
  | nil => rfl
  | cons d ds ih =>
    have hd := hl d (by simp)
    have hcd := hc d hd
    simp only [tokSearch, tokMatch, hcd, Bool.false_and, Bool.false_or]
    exact ih (fun x hx => hl x (by simp [hx]))

theorem containsDangerous_all_ws {s : String}
    (h : ∀ c ∈ s.data, isJsWhitespace c = true) : containsDangerous s = false := by
  have ht := fun d hd => (charCI_head_ws d hd).1
  have he := fun d hd => (charCI_head_ws d hd).2.1
  have hs := fun d hd => (charCI_head_ws d hd).2.2.1
  have hdd := fun d hd => (charCI_head_ws d hd).2.2.2.1
  have ho := fun d hd => (charCI_head_ws d hd).2.2.2.2
  simp only [containsDangerous, dangerousPatterns, List.any_cons, List.any_nil,
             Bool.or_eq_false_iff]
  refine ⟨?_, ?_, ?_, ?_, ?_, trivial⟩
  · rw [show tellApplicationPat = Tok.lit 't' :: tellApplicationPat.tail from rfl]
    exact tokSearch_lit_head_ws 't' _ _ ht h
  · rw [show endTellPat = Tok.lit 'e' :: endTellPat.tail from rfl]
    exact tokSearch_lit_head_ws 'e' _ _ he h
  · rw [show setToPat = Tok.lit 's' :: setToPat.tail from rfl]
    exact tokSearch_lit_head_ws 's' _ _ hs h
  · rw [show doShellScriptPat = Tok.lit 'd' :: doShellScriptPat.tail from rfl]
    exact tokSearch_lit_head_ws 'd' _ _ hdd h
  · rw [show osascriptPat = Tok.lit 'o' :: osascriptPat.tail from rfl]
    exact tokSearch_lit_head_ws 'o' _ _ ho h

theorem jsTrimList_all_ws {l : List Char}
    (h : ∀ c ∈ l, isJsWhitespace c = true) : jsTrimList l = [] := by
  have h1 : l.dropWhile isJsWhitespace = [] :=
    List.dropWhile_eq_nil_iff.mpr (fun x hx => h x hx)
  simp [jsTrimList, h1]

theorem validateStringInput_ok_inv {inp : JSValue} {f : String} {maxLen : Nat}
    {r : String} (h : validateStringInput inp f maxLen = .ok r) :
    ∃ s, inp = .str s ∧ containsDangerous s = false := by
  cases inp with
  | str s =>
    refine ⟨s, rfl, ?_⟩
    by_cases h0 : (s.length == 0) = true
    · simp [validateStringInput, h0] at h
    · by_cases h1 : s.length > maxLen
      · simp [validateStringInput, h0, h1] at h
      · by_cases h2 : containsDangerous s = true
        · simp [validateStringInput, h0, h1, h2] at h
        · simpa using h2
  | undefined => simp [validateStringInput] at h
  | null => simp [validateStringInput] at h
  | bool b => simp [validateStringInput] at h
  | num n => simp [validateStringInput] at h
  | arr l => simp [validateStringInput] at h
  | obj o => simp [validateStringInput] at h

theorem mapParameters_canonical_once (cfg : ValidationConfig) (T W D : String)
    (hT0 : T ≠ "") (hT1 : T.length ≤ cfg.maxStringLength)
    (hT2 : containsDangerous T = false) (hT3 : jsTrim T = T)
    (hW1 : dateRegexTest W = true) (hW2 : jsDateValid W = true)
    (hD1 : dateRegexTest D = true) (hD2 : jsDateValid D = true) :
    validateAndMapParameters cfg
      [("title", .str T), ("when", .str W), ("deadline", .str D)] =
    .ok [("name", .str T), ("title", .str T),
         ("activation_date", .str W), ("due_date", .str D)] := by
  have htT : (T == "") = false := by simpa using hT0
  have htW : (W == "") = false := by simpa using dateRegexTest_ne_empty hW1
  have htD : (D == "") = false := by simpa using dateRegexTest_ne_empty hD1
  have hWne : W ≠ "" := dateRegexTest_ne_empty hW1
  have hDne : D ≠ "" := dateRegexTest_ne_empty hD1
  simp [validateAndMapParameters, assembleParameters, getProp, truthy, htT, htW, htD,
        hT0, hWne, hDne,
        validateStringInput_ok "title" hT0 hT1 hT2, hT3,
        validateDateInput_ok "when" hW1 hW2,
        validateDateInput_ok "deadline" hD1 hD2,
        spreadMerge, isNull, List.filter, Bind.bind, Except.bind, Except.map,
        Pure.pure, Except.pure]

theorem mapParameters_canonical_twice (cfg : ValidationConfig) (T W D : String)
    (hT0 : T ≠ "") (hT1 : T.length ≤ cfg.maxStringLength)
    (hT2 : containsDangerous T = false) (hT3 : jsTrim T = T)
    (hD1 : dateRegexTest D = true) (hD2 : jsDateValid D = true) :
    validateAndMapParameters cfg
      [("name", .str T), ("title", .str T),
       ("activation_date", .str W), ("due_date", .str D)] =
    .ok [("name", .str T), ("title", .str T), ("activation_date", .str D)] := by
  have htT : (T == "") = false := by simpa using hT0
  have htD : (D == "") = false := by simpa using dateRegexTest_ne_empty hD1
  have hDne : D ≠ "" := dateRegexTest_ne_empty hD1
  simp [validateAndMapParameters, assembleParameters, getProp, truthy, htT, htD,
        hT0, hDne,
        validateStringInput_ok "title" hT0 hT1 hT2, hT3,
        validateDateInput_ok "due_date" hD1 hD2,
        spreadMerge, isNull, List.filter, Bind.bind, Except.bind, Except.map,
        Pure.pure, Except.pure]

/-! ### Claim C1 -/

/-- C1: the claim that parameter mapping is idempotent on already-canonical
`{title, when, deadline}` input fails on the code.  At the concrete valid
input title Buy milk, when 2024-01-01, deadline 2024-01-02, the second
application of `validateAndMapParameters` to the first result yields a
different `MappedParameters` object. -/
theorem C1_counterexample :
    validateAndMapParameters serverConfigValidation
      [("title", .str "Buy milk"), ("when", .str "2024-01-01"),
       ("deadline", .str "2024-01-02")] =
      .ok [("name", .str "Buy milk"), ("title", .str "Buy milk"),
           ("activation_date", .str "2024-01-01"), ("due_date", .str "2024-01-02")] ∧
    validateAndMapParameters serverConfigValidation
      [("name", .str "Buy milk"), ("title", .str "Buy milk"),
       ("activation_date", .str "2024-01-01"), ("due_date", .str "2024-01-02")] =
      .ok [("name", .str "Buy milk"), ("title", .str "Buy milk"),
           ("activation_date", .str "2024-01-02")] ∧
    [("name", JSValue.str "Buy milk"), ("title", JSValue.str "Buy milk"),
     ("activation_date", JSValue.str "2024-01-02")] ≠
    [("name", JSValue.str "Buy milk"), ("title", JSValue.str "Buy milk"),
     ("activation_date", JSValue.str "2024-01-01"),
     ("due_date", JSValue.str "2024-01-02")] := by
  refine ⟨rfl, rfl, ?_⟩
  intro h
  have hlen := congrArg List.length h
  simp at hlen

/-- C1 (amended): mapping is not idempotent on `{title, when, deadline}`
input.  For every canonical title (nonempty, within the length cap, free of
deny-list patterns, trim-fixed) and valid `when` and `deadline` dates, the
first application yields `{name, title, activation_date: when,
due_date: deadline}`, and applying the mapper again to that result instead
yields `{name, title, activation_date: deadline}`: the mapped `due_date` key
is reinterpreted as the legacy schedule alias for `when`, and no `due_date`
key survives the second application. -/
theorem C1_amended (cfg : ValidationConfig) (T W D : String)
    (hT0 : T ≠ "") (hT1 : T.length ≤ cfg.maxStringLength)
    (hT2 : containsDangerous T = false) (hT3 : jsTrim T = T)
    (hW1 : dateRegexTest W = true) (hW2 : jsDateValid W = true)
    (hD1 : dateRegexTest D = true) (hD2 : jsDateValid D = true) :
    validateAndMapParameters cfg
      [("title", .str T), ("when", .str W), ("deadline", .str D)] =
      .ok [("name", .str T), ("title", .str T),
           ("activation_date", .str W), ("due_date", .str D)] ∧
    validateAndMapParameters cfg
      [("name", .str T), ("title", .str T),
       ("activation_date", .str W), ("due_date", .str D)] =
      .ok [("name", .str T), ("title", .str T), ("activation_date", .str D)] :=
  ⟨mapParameters_canonical_once cfg T W D hT0 hT1 hT2 hT3 hW1 hW2 hD1 hD2,
   mapParameters_canonical_twice cfg T W D hT0 hT1 hT2 hT3 hD1 hD2⟩

/-- Witness for C1_amended at title Errands, when 2025-06-01, deadline
2025-06-15 under the real server configuration. -/
theorem C1_witness :
    validateAndMapParameters serverConfigValidation
      [("title", .str "Errands"), ("when", .str "2025-06-01"),
       ("deadline", .str "2025-06-15")] =
      .ok [("name", .str "Errands"), ("title", .str "Errands"),
           ("activation_date", .str "2025-06-01"), ("due_date", .str "2025-06-15")] ∧
    validateAndMapParameters serverConfigValidation
      [("name", .str "Errands"), ("title", .str "Errands"),
       ("activation_date", .str "2025-06-01"), ("due_date", .str "2025-06-15")] =
      .ok [("name", .str "Errands"), ("title", .str "Errands"),
           ("activation_date", .str "2025-06-15")] :=
  C1_amended serverConfigValidation "Errands" "2025-06-01" "2025-06-15"
    (by decide) (by decide) (by decide) (by decide)
    (by decide) (by decide) (by decide) (by decide)

/-! ### Claim C2 -/

/-- C2: the claim that `executeThingsJXA` treats an absent or falsy `data`
field with `success:true` as a distinct valid case fails on the code: at the
concrete parsed results `{success:true}` and `{success:true, data:false}` the
normalization step converts the result into a thrown Unknown error occurred
error instead of returning it. -/
theorem C2_counterexample :
    thingsNormalize (.obj [("success", .bool true)]) =
      .error "Unknown error occurred" ∧
    thingsNormalize (.obj [("success", .bool true), ("data", .bool false)]) =
      .error "Unknown error occurred" := ⟨rfl, rfl⟩

/-- C2 (amended): the normalization step of `executeThingsJXA` returns `data`
unwrapped only when both `success` and `data` are truthy; whenever `data` is
absent or falsy (even with `success:true`) it does not return a value but
throws.  The distinct valid boolean-false case exists only on the is-running
path, which calls `executeJXA` directly and never goes through this
normalization. -/
theorem C2_amended (r : JSValue) :
    (truthy (getField r "success") = true → truthy (getField r "data") = true →
      thingsNormalize r = .ok (getField r "data")) ∧
    (truthy (getField r "data") = false →
      exceptIsOk (thingsNormalize r) = false) := by
  constructor
  · intro h1 h2
    simp [thingsNormalize, h1, h2]
  · intro h
    simp [thingsNormalize, h, exceptIsOk]

/-- Witness for C2_amended at the parsed result
`{success:true, data:"payload"}`. -/
theorem C2_witness :
    thingsNormalize (.obj [("success", .bool true), ("data", .str "payload")]) =
      .ok (JSValue.str "payload") :=
  (C2_amended (.obj [("success", .bool true), ("data", .str "payload")])).1
    (by decide) (by decide)

/-! ### Claim C3 -/

/-- C3: the claim that `MappedParameters` never contains a key whose value is
null or undefined fails on the code for undefined: the filter strips only
strict `null`, so an `extraFields` entry bound to `undefined` survives into
the result. -/
theorem C3_counterexample :
    validateAndMapParameters serverConfigValidation [] [("extra", JSValue.undefined)] =
      .ok [("extra", JSValue.undefined)] ∧
    getProp [("extra", JSValue.undefined)] "extra" = JSValue.undefined := ⟨rfl, rfl⟩

/-- C3 (amended): the mapped result never contains a key whose value is
`null` — every absent or null-valued field is stripped — but only `null` is
stripped: `undefined` values injected through `extraFields` are retained. -/
theorem C3_amended (cfg : ValidationConfig) (args extra out : JsObj)
    (p : String × JSValue)
    (hmap : validateAndMapParameters cfg args extra = .ok out) (hp : p ∈ out) :
    isNull p.2 = false := by
  unfold validateAndMapParameters at hmap
  cases hass : assembleParameters cfg args extra with
  | error e =>
    rw [hass] at hmap
    exact absurd hmap (by simp [Except.map])
  | ok merged =>
    rw [hass] at hmap
    simp only [Except.map, Except.ok.injEq] at hmap
    rw [← hmap] at hp
    have := (List.mem_filter.mp hp).2
    simpa using this

/-- Witness for C3_amended at the mapped output of `{title:"A"}`, whose first
entry is the name field. -/
theorem C3_witness : isNull (JSValue.str "A") = false :=
  C3_amended serverConfigValidation [("title", .str "A")] []
    [("name", JSValue.str "A"), ("title", JSValue.str "A")]
    ("name", JSValue.str "A") rfl (List.mem_cons_self _ _)

/-! ### Claim C4 -/

/-- C4: legacy alias compatibility of the schedule date.  For every canonical
title and valid dates, `{name:X, due_date:D}` places D under the internal key
activation_date, exactly the key where `{title:X, when:D}` places its schedule
date; and when both `when` and the legacy `due_date` alias are present, `when`
wins. -/
theorem C4_legacy_alias (cfg : ValidationConfig) (X D D2 : String)
    (hX0 : X ≠ "") (hX1 : X.length ≤ cfg.maxStringLength)
    (hX2 : containsDangerous X = false) (hX3 : jsTrim X = X)
    (hD1 : dateRegexTest D = true) (hD2 : jsDateValid D = true)
    (hE1 : dateRegexTest D2 = true) (_hE2 : jsDateValid D2 = true) :
    validateAndMapParameters cfg [("name", .str X), ("due_date", .str D)] =
      .ok [("name", .str X), ("activation_date", .str D)] ∧
    validateAndMapParameters cfg [("title", .str X), ("when", .str D)] =
      .ok [("name", .str X), ("title", .str X), ("activation_date", .str D)] ∧
    validateAndMapParameters cfg
      [("title", .str X), ("when", .str D), ("due_date", .str D2)] =
      .ok [("name", .str X), ("title", .str X), ("activation_date", .str D)] := by
  have htX : (X == "") = false := by simpa using hX0
  have htD : (D == "") = false := by simpa using dateRegexTest_ne_empty hD1
  have htE : (D2 == "") = false := by simpa using dateRegexTest_ne_empty hE1
  have hDne : D ≠ "" := dateRegexTest_ne_empty hD1
  have hEne : D2 ≠ "" := dateRegexTest_ne_empty hE1
  refine ⟨?_, ?_, ?_⟩ <;>
    simp [validateAndMapParameters, assembleParameters, getProp, truthy,
          htX, htD, htE, hX0, hDne, hEne,
          validateStringInput_ok "name" hX0 hX1 hX2,
          validateStringInput_ok "title" hX0 hX1 hX2, hX3,
          validateDateInput_ok "when" hD1 hD2,
          validateDateInput_ok "due_date" hD1 hD2,
          spreadMerge, isNull, List.filter, Bind.bind, Except.bind, Except.map,
          Pure.pure, Except.pure]

/-- Witness for C4_legacy_alias at name/title Pay rent, schedule date
2024-01-01, and extra legacy date 2024-03-05. -/
theorem C4_witness :
    validateAndMapParameters serverConfigValidation
      [("name", .str "Pay rent"), ("due_date", .str "2024-01-01")] =
      .ok [("name", .str "Pay rent"), ("activation_date", .str "2024-01-01")] ∧
    validateAndMapParameters serverConfigValidation
      [("title", .str "Pay rent"), ("when", .str "2024-01-01")] =
      .ok [("name", .str "Pay rent"), ("title", .str "Pay rent"),
           ("activation_date", .str "2024-01-01")] ∧
    validateAndMapParameters serverConfigValidation
      [("title", .str "Pay rent"), ("when", .str "2024-01-01"),
       ("due_date", .str "2024-03-05")] =
      .ok [("name", .str "Pay rent"), ("title", .str "Pay rent"),
           ("activation_date", .str "2024-01-01")] :=
  C4_legacy_alias serverConfigValidation "Pay rent" "2024-01-01" "2024-03-05"
    (by decide) (by decide) (by decide) (by decide)
    (by decide) (by decide) (by decide) (by decide)

/-! ### Claim C5 -/

/-- C5: for the update and show handlers, an execution failure after a valid
id (in particular the not-found resolution failure on a nonexistent id)
produces a successful response envelope carrying `success:false`, the named
domain error code (TODO_NOT_FOUND, PROJECT_NOT_FOUND, ITEM_NOT_FOUND), and a
message naming the id — never a thrown protocol-level error. -/
theorem C5_soft_not_found (cfg : ValidationConfig) (args sp : JsObj)
    (err : ThrownError) :
    (validateAndMapParameters cfg args = .ok sp →
     truthy (getProp sp "id") = true →
      updateTodo cfg args (.error err) = .ok (createSuccessResponse (.obj
        [("success", .bool false),
         ("message", .str ("To-do not found: " ++ jsToString (getProp sp "id"))),
         ("error", .str "TODO_NOT_FOUND")]))) ∧
    (validateAndMapParameters cfg args = .ok sp →
     truthy (getProp sp "id") = true →
      updateProject cfg args (.error err) = .ok (createSuccessResponse (.obj
        [("success", .bool false),
         ("message", .str ("Project not found: " ++ jsToString (getProp sp "id"))),
         ("error", .str "PROJECT_NOT_FOUND")]))) ∧
    (∀ itemId,
      validateStringInput (getProp args "id") "id" cfg.maxStringLength = .ok itemId →
      showItem cfg args (.error err) = .ok (createSuccessResponse (.obj
        [("success", .bool false),
         ("message", .str ("Item not found: " ++ itemId)),
         ("error", .str "ITEM_NOT_FOUND")]))) := by
  refine ⟨?_, ?_, ?_⟩
  · intro h1 h2
    simp [updateTodo, h1, h2]
  · intro h1 h2
    simp [updateProject, h1, h2]
  · intro itemId h1
    simp [showItem, h1]

/-- Witness for C5_soft_not_found at the nonexistent id zzz and a generic
execution error. -/
theorem C5_witness :
    updateTodo serverConfigValidation [("id", .str "zzz")] (.error (.err "boom")) =
      .ok (createSuccessResponse (.obj
        [("success", .bool false), ("message", .str "To-do not found: zzz"),
         ("error", .str "TODO_NOT_FOUND")])) ∧
    updateProject serverConfigValidation [("id", .str "zzz")] (.error (.err "boom")) =
      .ok (createSuccessResponse (.obj
        [("success", .bool false), ("message", .str "Project not found: zzz"),
         ("error", .str "PROJECT_NOT_FOUND")])) ∧
    showItem serverConfigValidation [("id", .str "zzz")] (.error (.err "boom")) =
      .ok (createSuccessResponse (.obj
        [("success", .bool false), ("message", .str "Item not found: zzz"),
         ("error", .str "ITEM_NOT_FOUND")])) :=
  ⟨(C5_soft_not_found serverConfigValidation [("id", .str "zzz")] [("id", .str "zzz")]
      (.err "boom")).1 rfl (by decide),
   (C5_soft_not_found serverConfigValidation [("id", .str "zzz")] [("id", .str "zzz")]
      (.err "boom")).2.1 rfl (by decide),
   (C5_soft_not_found serverConfigValidation [("id", .str "zzz")] [("id", .str "zzz")]
      (.err "boom")).2.2 "zzz" rfl⟩

/-! ### Claim C6 -/

/-- C6: `validateDateInput` returns exactly the pattern-matching real calendar
date strings, unchanged; every other input (non-string, pattern mismatch, or a
pattern-matching string that is not a real calendar date such as 2024-02-30)
fails with an invalid-parameter error. -/
theorem C6_validateDate (v : JSValue) (f : String) :
    (∀ s, v = JSValue.str s → dateRegexTest s = true → jsDateValid s = true →
      validateDateInput v f = .ok s) ∧
    (∀ s, validateDateInput v f = .ok s →
      v = JSValue.str s ∧ dateRegexTest s = true ∧ jsDateValid s = true) := by
  constructor
  · intro s hv h1 h2
    subst hv
    exact validateDateInput_ok f h1 h2
  · intro s hok
    cases v with
    | str s0 =>
      by_cases h1 : dateRegexTest s0 = true
      · by_cases h2 : jsDateValid s0 = true
        · rw [validateDateInput_ok f h1 h2] at hok
          injection hok with hs
          subst hs
          exact ⟨rfl, h1, h2⟩
        · have h2f : jsDateValid s0 = false := by simpa using h2
          simp [validateDateInput, h1, h2f] at hok
      · have h1f : dateRegexTest s0 = false := by simpa using h1
        simp [validateDateInput, h1f] at hok
    | undefined => simp [validateDateInput] at hok
    | null => simp [validateDateInput] at hok
    | bool b => simp [validateDateInput] at hok
    | num n => simp [validateDateInput] at hok
    | arr l => simp [validateDateInput] at hok
    | obj o => simp [validateDateInput] at hok

/-- Witness for C6_validateDate at the leap-day string 2024-02-29, a real
calendar date returned unchanged. -/
theorem C6_witness :
    validateDateInput (.str "2024-02-29") "when" = .ok "2024-02-29" :=
  (C6_validateDate (.str "2024-02-29") "when").1 "2024-02-29" rfl
    (by decide) (by decide)

/-! ### Claim C7 -/

/-- C7: every string that contains, anywhere within it, a (case-insensitive)
match of any deny-list pattern is rejected by `validateStringInput` whatever
the surrounding text; such an input is never returned. -/
theorem C7_dangerous_rejected (p : List Tok) (hp : p ∈ dangerousPatterns)
    (a mid b : List Char) (hm : tokMatch p mid = true)
    (f : String) (maxLen : Nat) :
    exceptIsOk (validateStringInput (.str ⟨a ++ mid ++ b⟩) f maxLen) = false := by
  have hcd : containsDangerous ⟨a ++ mid ++ b⟩ = true := by
    unfold containsDangerous
    apply List.any_eq_true.mpr
    refine ⟨p, hp, ?_⟩
    show tokSearch p (a ++ mid ++ b) = true
    rw [List.append_assoc]
    exact tokSearch_of_match a (tokMatch_append b hm)
  cases hres : validateStringInput (.str ⟨a ++ mid ++ b⟩) f maxLen with
  | ok r =>
    obtain ⟨s, hs, hfalse⟩ := validateStringInput_ok_inv hres
    injection hs with hs'
    rw [← hs'] at hfalse
    rw [hcd] at hfalse
    exact absurd hfalse (by decide)
  | error e => rfl

/-- Witness for C7_dangerous_rejected: the pattern osascript occurring with
mixed case inside otherwise legitimate text. -/
theorem C7_witness :
    exceptIsOk (validateStringInput
      (.str ⟨"please run ".data ++ "OsaScript".data ++ " for me".data⟩)
      "notes" 500) = false :=
  C7_dangerous_rejected osascriptPat (by decide)
    "please run ".data "OsaScript".data " for me".data (by decide) "notes" 500

/-! ### Claim C8 -/

/-- C8: the claim that an oversized generated script raises an InvalidParams
failure is refuted at a concrete input: with a size limit of 5 and the
six-character script 123456, the error surfaced is InternalError — the size
check throws InvalidParams, but the catch-all of `executeJXA` re-wraps it.
The executor is still never invoked. -/
theorem C8_counterexample :
    executeJXA 5 "123456" (.resolved "" (.ok (.obj []))) =
      { executorInvoked := false,
        result := .error ⟨.internalError,
          "JXA execution failed: MCP error -32602: Generated JXA script too large: 6 bytes (max: 5)"⟩ } := rfl

/-- C8 (amended): for every script exceeding the configured maximum size,
`executeJXA` fails before any execution attempt — the executor is never
invoked — but the surfaced failure is an InternalError wrapping the
InvalidParams size error, because the catch-all of `executeJXA` catches its
own size-check McpError and re-wraps it with the JXA execution failed
prefix. -/
theorem C8_amended (maxScriptSize : Nat) (script : String) (outcome : ExecOutcome)
    (h : script.length > maxScriptSize) :
    executeJXA maxScriptSize script outcome =
      { executorInvoked := false,
        result := .error ⟨.internalError,
          "JXA execution failed: " ++
            (jxaScriptSizeError script.length maxScriptSize).jsMessage⟩ } := by
  simp [executeJXA, h, catchWrap]

/-- Witness for C8_amended at size limit 5 and a seven-character script, with
a rejected (timed-out) executor outcome that is never consulted. -/
theorem C8_witness :
    executeJXA 5 "1234567" (.rejected (some "ETIMEDOUT") "killed") =
      { executorInvoked := false,
        result := .error ⟨.internalError,
          "JXA execution failed: " ++ (jxaScriptSizeError 7 5).jsMessage⟩ } :=
  C8_amended 5 "1234567" (.rejected (some "ETIMEDOUT") "killed") (by decide)

/-! ### Claim C9 -/

/-- C9: in the update-todo, update-project and show-item handlers, once id
validation has succeeded, every error thrown during execution — not only
not-found, but timeouts, parse failures and any other execution error — is
converted into the soft-failure success envelope with `success:false` and the
corresponding not-found code; no execution error escapes these handlers as a
thrown error. -/
theorem C9_all_errors_soft (cfg : ValidationConfig) (args sp : JsObj)
    (err : ThrownError) :
    (validateAndMapParameters cfg args = .ok sp →
     truthy (getProp sp "id") = true →
      exceptIsOk (updateTodo cfg args (.error err)) = true ∧
      responseField (updateTodo cfg args (.error err)) "success" = .bool false ∧
      responseField (updateTodo cfg args (.error err)) "error" =
        .str "TODO_NOT_FOUND") ∧
    (validateAndMapParameters cfg args = .ok sp →
     truthy (getProp sp "id") = true →
      exceptIsOk (updateProject cfg args (.error err)) = true ∧
      responseField (updateProject cfg args (.error err)) "success" = .bool false ∧
      responseField (updateProject cfg args (.error err)) "error" =
        .str "PROJECT_NOT_FOUND") ∧
    (∀ itemId,
      validateStringInput (getProp args "id") "id" cfg.maxStringLength = .ok itemId →
      exceptIsOk (showItem cfg args (.error err)) = true ∧
      responseField (showItem cfg args (.error err)) "success" = .bool false ∧
      responseField (showItem cfg args (.error err)) "error" =
        .str "ITEM_NOT_FOUND") := by
  refine ⟨?_, ?_, ?_⟩
  · intro h1 h2
    have henv : updateTodo cfg args (.error err) = .ok (createSuccessResponse (.obj
        [("success", .bool false),
         ("message", .str ("To-do not found: " ++ jsToString (getProp sp "id"))),
         ("error", .str "TODO_NOT_FOUND")])) := by
      simp [updateTodo, h1, h2]
    refine ⟨?_, ?_, ?_⟩ <;> rw [henv] <;>
      simp [exceptIsOk, responseField, createSuccessResponse, getField, getProp]
  · intro h1 h2
    have henv : updateProject cfg args (.error err) = .ok (createSuccessResponse (.obj
        [("success", .bool false),
         ("message", .str ("Project not found: " ++ jsToString (getProp sp "id"))),
         ("error", .str "PROJECT_NOT_FOUND")])) := by
      simp [updateProject, h1, h2]
    refine ⟨?_, ?_, ?_⟩ <;> rw [henv] <;>
      simp [exceptIsOk, responseField, createSuccessResponse, getField, getProp]
  · intro itemId h1
    have henv : showItem cfg args (.error err) = .ok (createSuccessResponse (.obj
        [("success", .bool false),
         ("message", .str ("Item not found: " ++ itemId)),
         ("error", .str "ITEM_NOT_FOUND")])) := by
      simp [showItem, h1]
    refine ⟨?_, ?_, ?_⟩ <;> rw [henv] <;>
      simp [exceptIsOk, responseField, createSuccessResponse, getField, getProp]

/-- Witness for C9_all_errors_soft at a timed-out execution (a thrown McpError
timeout, not a not-found failure) on a valid id. -/
theorem C9_witness :
    exceptIsOk (updateTodo serverConfigValidation [("id", .str "abc")]
      (.error (.mcp ⟨.internalError, jxaTimeoutMessage⟩))) = true ∧
    responseField (updateTodo serverConfigValidation [("id", .str "abc")]
      (.error (.mcp ⟨.internalError, jxaTimeoutMessage⟩))) "success" = .bool false ∧
    responseField (updateTodo serverConfigValidation [("id", .str "abc")]
      (.error (.mcp ⟨.internalError, jxaTimeoutMessage⟩))) "error" =
      .str "TODO_NOT_FOUND" :=
  (C9_all_errors_soft serverConfigValidation [("id", .str "abc")] [("id", .str "abc")]
    (.mcp ⟨.internalError, jxaTimeoutMessage⟩)).1 rfl (by decide)

/-! ### Claim C10 -/

/-- C10: `validateStringInput` checks emptiness and the maximum length against
the untrimmed input but returns the trimmed string: every whitespace-only
nonempty input within the length cap is accepted and yields the empty string,
even though the explicitly empty input is rejected — so the returned length
can be smaller than the length checks suggest, and can be zero. -/
theorem C10_whitespace_trim (s : String) (f : String) (maxLen : Nat)
    (hne : s.data ≠ []) (hws : ∀ c ∈ s.data, isJsWhitespace c = true)
    (hlen : s.length ≤ maxLen) :
    validateStringInput (.str s) f maxLen = .ok "" ∧
    validateStringInput (.str "") f maxLen =
      .error ⟨.invalidParams, f ++ " cannot be empty"⟩ := by
  constructor
  · have h0 : s ≠ "" := by
      intro he
      subst he
      exact hne rfl
    rw [validateStringInput_ok f h0 hlen (containsDangerous_all_ws hws)]
    have ht : jsTrim s = "" := by
      unfold jsTrim
      rw [jsTrimList_all_ws hws]
    rw [ht]
  · rfl

/-- Witness for C10_whitespace_trim at the single-space input. -/
theorem C10_witness :
    validateStringInput (.str " ") "title" 500 = .ok "" ∧
    validateStringInput (.str "") "title" 500 =
      .error ⟨.invalidParams, "title cannot be empty"⟩ :=
  C10_whitespace_trim " " "title" 500 (by decide) (by decide) (by decide)

end ThingsDxt
